import Mathlib

/-
Verification development for the editorjs-delimiter block tool.

The repository ships two snapshots of the Delimiter class:
  - variant V1 (integer line-thickness options 1..6), and
  - variant V2 (string line-thickness tokens "0.5px".."3px"),
plus a pure icon module mapping a line width to two SVG line-endpoint
coordinates.

JavaScript conventions are embedded explicitly:
  - optional object fields become Option values; an absent field is none;
  - JS truthiness on a string is nonemptiness, on a number it is being
    nonzero; the two jsOr helpers below embed the JS operator for the
    value-or-default idiom used by the normalizer;
  - parseInt applied to an already-integer field is the identity, and
    parseInt of an absent or non-numeric field yields NaN, which is falsy;
    the embedding therefore carries numeric data fields as Option Int,
    folding the NaN outcomes into none;
  - a data argument whose typeof is not "object" is represented by the
    dedicated constructor InputData.notObject (the class replaces any such
    value by an empty object before reading fields, so all these values
    behave identically; a null argument has typeof "object" in JS and is
    outside the domain of this embedding, since reading a field of null
    faults before any of the modelled logic runs).
-/

/-- JS value-or-default on an optional string field: the empty string is
falsy, so it also falls back to the default. -/
def jsOrStr (v : Option String) (dflt : String) : String :=
  match v with
  | some s => if s = "" then dflt else s
  | none => dflt

/-- JS value-or-default on an optional integer field: zero is falsy, so it
also falls back to the default. -/
def jsOrInt (v : Option Int) (dflt : Int) : Int :=
  match v with
  | some n => if n = 0 then dflt else n
  | none => dflt

/-- Endpoint coordinates used by the line-width icon, from icons/line.js:
an if-else chain keyed on the width, every unmatched width falling through
to the 100 percent branch. -/
def lineIconCoords (width : Int) : Int × Int :=
  if width = 8 then (10, 14)
  else if width = 15 then (9, 15)
  else if width = 25 then (8, 16)
  else if width = 35 then (7, 17)
  else if width = 50 then (6, 18)
  else if width = 60 then (5, 19)
  else (4, 20)

/-- The drawn segment length of the line-width icon: the difference of the
two x coordinates of the horizontal line endpoints. -/
def lineIconDist (width : Int) : Int :=
  (lineIconCoords width).2 - (lineIconCoords width).1

/-- The full SVG markup returned by icons/line.js for a given width. -/
def getLineWidthIcon (width : Int) : String :=
  "<svg xmlns=\"http://www.w3.org/2000/svg\" viewBox=\"0 0 24 24\" width=\"24\" height=\"24\" fill=\"none\" stroke=\"currentColor\" stroke-width=\"2\" stroke-linecap=\"round\" stroke-linejoin=\"round\"><line x1=\""
    ++ toString (lineIconCoords width).1
    ++ "\" y1=\"12\" x2=\""
    ++ toString (lineIconCoords width).2
    ++ "\" y2=\"12\" /></svg>"

/-- Modelled from the spec: opaque icon markup of icons/delimiter.js, a
file not present under src; no claim depends on its content. -/
def delimiterIcon : String := "icon:delimiter"

/-- Modelled from the spec: opaque icon markup of icons/asterisk.js, a
file not present under src; no claim depends on its content. -/
def asteriskIcon : String := "icon:asterisk"

/-- Modelled from the spec: icons/thickness.js (not present under src)
maps a thickness value to icon markup whose stroke weight encodes the
thickness; no claim depends on its content, only on its purity. -/
def getThicknessIcon (thickness : Int) : String :=
  "icon:thickness:" ++ toString thickness

/-- Modelled from the spec: the IconDelimiter constant imported by the V2
variant from an external icon package; no claim depends on its content. -/
def IconDelimiter : String := "icon:IconDelimiter"

namespace V1

/-- All supported delimiter styles (static DELIMITER_STYLES). -/
def DELIMITER_STYLES : List String := ["star", "dash", "line"]

/-- Default delimiter style (static DEFAULT_DELIMITER_STYLE). -/
def DEFAULT_DELIMITER_STYLE : String := "star"

/-- All supported widths for the line style (static SUPPORTED_LINE_WIDTHS). -/
def SUPPORTED_LINE_WIDTHS : List Int := [8, 15, 25, 35, 50, 60, 100]

/-- Default width for the line style (static DEFAULT_LINE_WIDTH). -/
def DEFAULT_LINE_WIDTH : Int := 25

/-- All supported thickness options for the line style (static LINE_THICKNESS). -/
def LINE_THICKNESS : List Int := [1, 2, 3, 4, 5, 6]

/-- Default thickness for the line style (static DEFAULT_LINE_THICKNESS). -/
def DEFAULT_LINE_THICKNESS : Int := 2

/-- The recognized configuration object of the V1 variant. Absent fields
are none; a present empty option list is some [] (still truthy in JS). -/
structure Config where
  styleOptions : Option (List String) := none
  defaultStyle : Option String := none
  lineWidthOptions : Option (List Int) := none
  defaultLineWidth : Option Int := none
  lineThicknessOptions : Option (List Int) := none
  defaultLineThickness : Option Int := none
deriving DecidableEq

/-- All available delimiter styles: the supported styles filtered by the
user allow-list when one is given, the full supported list otherwise. -/
def availableDelimiterStyles (cfg : Config) : List String :=
  match cfg.styleOptions with
  | some opts => DELIMITER_STYLES.filter (fun style => opts.contains style)
  | none => DELIMITER_STYLES

/-- The user default delimiter style: when the configured defaultStyle is
truthy, look it up in the available styles and return it when the lookup
result is truthy; in every other case fall back to the built-in default.
The test of the lookup result mirrors the JS truthiness test on the found
value. -/
def userDefaultDelimiterStyle (cfg : Config) : String :=
  match cfg.defaultStyle with
  | some d =>
    if d = "" then DEFAULT_DELIMITER_STYLE
    else
      match (availableDelimiterStyles cfg).find? (fun style => style == d) with
      | some s => if s = "" then DEFAULT_DELIMITER_STYLE else s
      | none => DEFAULT_DELIMITER_STYLE
  | none => DEFAULT_DELIMITER_STYLE

/-- Whether the defaultStyle branch reaches the console warning: the
configured value is truthy and the lookup in the available styles does not
produce a truthy value. -/
def userDefaultDelimiterStyleWarns (cfg : Config) : Bool :=
  match cfg.defaultStyle with
  | some d =>
    if d = "" then false
    else
      match (availableDelimiterStyles cfg).find? (fun style => style == d) with
      | some s => s == ""
      | none => true
  | none => false

/-- All available widths for the line style: the supported widths filtered
by the user allow-list when one is given, the full supported list otherwise. -/
def availableLineWidths (cfg : Config) : List Int :=
  match cfg.lineWidthOptions with
  | some opts => SUPPORTED_LINE_WIDTHS.filter (fun width => opts.contains width)
  | none => SUPPORTED_LINE_WIDTHS

/-- The user default line width, by the same truthiness-guarded lookup as
the style default. -/
def userDefaultLineWidth (cfg : Config) : Int :=
  match cfg.defaultLineWidth with
  | some d =>
    if d = 0 then DEFAULT_LINE_WIDTH
    else
      match (availableLineWidths cfg).find? (fun width => width == d) with
      | some w => if w = 0 then DEFAULT_LINE_WIDTH else w
      | none => DEFAULT_LINE_WIDTH
  | none => DEFAULT_LINE_WIDTH

/-- Whether the defaultLineWidth branch reaches the console warning. -/
def userDefaultLineWidthWarns (cfg : Config) : Bool :=
  match cfg.defaultLineWidth with
  | some d =>
    if d = 0 then false
    else
      match (availableLineWidths cfg).find? (fun width => width == d) with
      | some w => w == 0
      | none => true
  | none => false

/-- All available line thickness options: the supported options filtered
by the user allow-list when one is given, the full supported list otherwise. -/
def availableLineThickness (cfg : Config) : List Int :=
  match cfg.lineThicknessOptions with
  | some opts => LINE_THICKNESS.filter (fun thickness => opts.contains thickness)
  | none => LINE_THICKNESS

/-- The user default line thickness, by the same truthiness-guarded lookup
as the style default. -/
def userDefaultLineThickness (cfg : Config) : Int :=
  match cfg.defaultLineThickness with
  | some d =>
    if d = 0 then DEFAULT_LINE_THICKNESS
    else
      match (availableLineThickness cfg).find? (fun thickness => thickness == d) with
      | some t => if t = 0 then DEFAULT_LINE_THICKNESS else t
      | none => DEFAULT_LINE_THICKNESS
  | none => DEFAULT_LINE_THICKNESS

/-- Whether the defaultLineThickness branch reaches the console warning. -/
def userDefaultLineThicknessWarns (cfg : Config) : Bool :=
  match cfg.defaultLineThickness with
  | some d =>
    if d = 0 then false
    else
      match (availableLineThickness cfg).find? (fun thickness => thickness == d) with
      | some t => t == 0
      | none => true
  | none => false

/-- The fields a V1 data object may carry; an absent field is none. -/
structure DataObj where
  style : Option String := none
  lineWidth : Option Int := none
  lineThickness : Option Int := none
deriving DecidableEq

/-- The empty data object the class substitutes for a non-object argument. -/
def DataObj.empty : DataObj := {}

/-- The data argument of the constructor: either a value whose typeof is
not the string "object", or a data object. -/
inductive InputData where
  | notObject
  | obj (d : DataObj)
deriving DecidableEq

/-- The complete internal state produced by normalization. -/
structure DelimiterData where
  style : String
  lineWidth : Int
  lineThickness : Int
deriving DecidableEq

/-- The data normalizer: a non-object argument is replaced by an empty
object, then each field is taken from the data when truthy (numeric fields
through parseInt) and from the resolved default otherwise. -/
def normalizeData (cfg : Config) (d : InputData) : DelimiterData :=
  let dd := match d with
    | .notObject => DataObj.empty
    | .obj o => o
  { style := jsOrStr dd.style (userDefaultDelimiterStyle cfg)
    lineWidth := jsOrInt dd.lineWidth (userDefaultLineWidth cfg)
    lineThickness := jsOrInt dd.lineThickness (userDefaultLineThickness cfg) }

/-- The current delimiter style: the stored style looked up in the
available styles, the user default when the lookup result is falsy. -/
def currentDelimiterStyle (cfg : Config) (st : DelimiterData) : String :=
  match (availableDelimiterStyles cfg).find? (fun style => style == st.style) with
  | some s => if s = "" then userDefaultDelimiterStyle cfg else s
  | none => userDefaultDelimiterStyle cfg

/-- The current line width: the stored width looked up in the available
widths, the user default when the lookup result is falsy. -/
def currentLineWidth (cfg : Config) (st : DelimiterData) : Int :=
  match (availableLineWidths cfg).find? (fun width => width == st.lineWidth) with
  | some w => if w = 0 then userDefaultLineWidth cfg else w
  | none => userDefaultLineWidth cfg

/-- The current line thickness: the stored thickness looked up in the
available options, the user default when the lookup result is falsy. -/
def currentLineThickness (cfg : Config) (st : DelimiterData) : Int :=
  match (availableLineThickness cfg).find? (fun thickness => thickness == st.lineThickness) with
  | some t => if t = 0 then userDefaultLineThickness cfg else t
  | none => userDefaultLineThickness cfg

/-- The wrapper CSS class of the V1 variant. -/
def wrapper : String := "ce-delimiter"

/-- The style-specific CSS class builder of the V1 variant. -/
def wrapperForStyle (style : String) : String := "ce-delimiter-" ++ style

/-- The thickness-specific CSS class builder of the V1 variant. -/
def wrapperForThickness (thickness : Int) : String :=
  "ce-delimiter-thickness-" ++ toString thickness

/-- The child of the block element: a text span for the glyph styles, a
horizontal rule with an inline width and a thickness class for the line
style. -/
inductive ChildEl where
  | span (text : String)
  | hr (widthPct : Int) (thicknessClass : String)
deriving DecidableEq

/-- The block element: its CSS class list and its single child. -/
structure El where
  classes : List String
  child : ChildEl
deriving DecidableEq

/-- The style-to-glyph map of createChildElement. -/
def delimiterMap : List (String × String) := [("star", "***"), ("dash", "———")]

/-- The child element: a span with the mapped glyph when the current style
is a key of the map, a horizontal rule with the current width and the
thickness class otherwise. -/
def createChildElement (cfg : Config) (st : DelimiterData) : ChildEl :=
  match delimiterMap.find? (fun p => p.1 == currentDelimiterStyle cfg st) with
  | some p => .span p.2
  | none => .hr (currentLineWidth cfg st) (wrapperForThickness (currentLineThickness cfg st))

/-- The host collaborators the class reads: the block CSS class and the
translation function of the i18n api. -/
structure Api where
  blockClass : String
  t : String → String

/-- The block element: wrapper class, host block class, style-specific
class, and the child element. -/
def getElement (api : Api) (cfg : Config) (st : DelimiterData) : El :=
  { classes := [wrapper, api.blockClass, wrapperForStyle (currentDelimiterStyle cfg st)]
    child := createChildElement cfg st }

/-- The save output: lineWidth and lineThickness are none when the
returned object omits those keys. -/
structure SavedData where
  style : String
  lineWidth : Option Int := none
  lineThickness : Option Int := none
deriving DecidableEq

/-- The save method: all three fields for the line style, only the style
field otherwise. -/
def save (cfg : Config) (st : DelimiterData) : SavedData :=
  if currentDelimiterStyle cfg st = "line" then
    { style := currentDelimiterStyle cfg st
      lineWidth := some (currentLineWidth cfg st)
      lineThickness := some (currentLineThickness cfg st) }
  else
    { style := currentDelimiterStyle cfg st }

/-- The state mutation an onActivate callback performs, as a tag. -/
inductive Action where
  | setStar
  | setDash
  | setLine (width : Int)
  | setLineThickness (thickness : Int)
deriving DecidableEq

/-- A block settings menu entry. -/
structure MenuItem where
  icon : String
  label : String
  onActivate : Action
  isActive : Bool
  closeOnActivate : Bool
  toggle : String
deriving DecidableEq

/-- The createSetting helper: closeOnActivate is always true. -/
def createSetting (icon label : String) (onActivate : Action) (isActive : Bool)
    (group : String) : MenuItem :=
  { icon := icon, label := label, onActivate := onActivate, isActive := isActive
    closeOnActivate := true, toggle := group }

/-- The getFormattedLabel helper: with a truthy prefix or suffix the label
is their concatenation around the name, otherwise the capitalized name;
both go through the i18n translation function. -/
def getFormattedLabel (api : Api) (name pfx sfx : String) : String :=
  if pfx ≠ "" ∨ sfx ≠ "" then api.t (pfx ++ name ++ sfx)
  else api.t name.capitalize

/-- The settings menu: the star entry, the dash entry, one entry per
available width, and, only when the current style is line, one entry per
available thickness. -/
def renderSettings (api : Api) (cfg : Config) (st : DelimiterData) : List MenuItem :=
  let starStyle := createSetting asteriskIcon "Star" .setStar
    (currentDelimiterStyle cfg st == "star") "star"
  let dashStyle := createSetting delimiterIcon "Dash" .setDash
    (currentDelimiterStyle cfg st == "dash") "dash"
  let lineWidths := (availableLineWidths cfg).map (fun width =>
    createSetting (getLineWidthIcon width) (getFormattedLabel api (toString width) "Line " "%")
      (.setLine width)
      ((currentDelimiterStyle cfg st == "line") && (width == currentLineWidth cfg st)) "line")
  let lineThickness :=
    if currentDelimiterStyle cfg st == "line" then
      (availableLineThickness cfg).map (fun thickness =>
        createSetting (getThicknessIcon thickness)
          (getFormattedLabel api (toString thickness) "Thickness " "")
          (.setLineThickness thickness)
          (thickness == currentLineThickness cfg st) "thickness")
    else []
  [starStyle, dashStyle] ++ lineWidths ++ lineThickness

/-- A component instance: the host api, the configuration, the normalized
data, the root element, and whether that element is currently mounted (in
the DOM, the parentNode of the root element being non-null). -/
structure Delimiter where
  api : Api
  config : Config
  data : DelimiterData
  element : El
  mounted : Bool

/-- The constructor: normalize the data and build the root element. The
mounted flag models the DOM environment; a fresh element starts unmounted. -/
def Delimiter.mk' (api : Api) (cfg : Config) (d : InputData) : Delimiter :=
  let st := normalizeData cfg d
  { api := api, config := cfg, data := st
    element := getElement api cfg st, mounted := false }

/-- replaceElement: when the root element has a parent, build a fresh
element from the current state and swap it in; otherwise do nothing. -/
def replaceElement (c : Delimiter) : Delimiter :=
  if c.mounted then
    { c with element := getElement c.api c.config c.data }
  else c

/-- The style callback for star: when the current style is not star, store
star and replace the element. -/
def setStar (c : Delimiter) : Delimiter :=
  if currentDelimiterStyle c.config c.data ≠ "star" then
    replaceElement { c with data := { c.data with style := "star" } }
  else c

/-- The style callback for dash: when the current style is not dash, store
dash and replace the element. -/
def setDash (c : Delimiter) : Delimiter :=
  if currentDelimiterStyle c.config c.data ≠ "dash" then
    replaceElement { c with data := { c.data with style := "dash" } }
  else c

/-- In-place width patch of the horizontal rule child, used by the line
callback when the style is already line; when the element has no rule
child the querySelector result is null and nothing happens. -/
def patchHrWidth (e : El) (w : Int) : El :=
  match e.child with
  | .hr _ tc => { e with child := .hr w tc }
  | .span _ => e

/-- The line callback: store the new width unconditionally; when the
current style is not line, also store line and replace the element, else
patch the rule width in place. -/
def setLine (newWidth : Int) (c : Delimiter) : Delimiter :=
  let c1 := { c with data := { c.data with lineWidth := newWidth } }
  if currentDelimiterStyle c1.config c1.data ≠ "line" then
    replaceElement { c1 with data := { c1.data with style := "line" } }
  else
    { c1 with element := patchHrWidth c1.element newWidth }

/-- The render method: return the stored root element. -/
def render (c : Delimiter) : El := c.element

end V1

namespace V2

/-- All supported delimiter styles (static DELIMITER_STYLES). -/
def DELIMITER_STYLES : List String := ["star", "dash", "line"]

/-- Default delimiter style (static DEFAULT_DELIMITER_STYLE). -/
def DEFAULT_DELIMITER_STYLE : String := "star"

/-- All supported widths for the line style (static LINE_WIDTHS). -/
def LINE_WIDTHS : List Int := [8, 15, 25, 35, 50, 60, 100]

/-- Default width for the line style (static DEFAULT_LINE_WIDTH). -/
def DEFAULT_LINE_WIDTH : Int := 25

/-- All supported thickness tokens for the line style (static LINE_THICKNESS). -/
def LINE_THICKNESS : List String := ["0.5px", "1px", "1.5px", "2px", "2.5px", "3px"]

/-- Default thickness token for the line style (static DEFAULT_LINE_THICKNESS). -/
def DEFAULT_LINE_THICKNESS : String := "1px"

/-- The recognized configuration object of the V2 variant. -/
structure Config where
  styles : Option (List String) := none
  defaultStyle : Option String := none
  lineWidths : Option (List Int) := none
  defaultLineWidth : Option Int := none
  lineThickness : Option (List String) := none
  defaultLineThickness : Option String := none
deriving DecidableEq

/-- All available delimiter styles of the V2 variant. -/
def availableDelimiterStyles (cfg : Config) : List String :=
  match cfg.styles with
  | some opts => DELIMITER_STYLES.filter (fun style => opts.contains style)
  | none => DELIMITER_STYLES

/-- The user default delimiter style of the V2 variant. -/
def userDefaultDelimiterStyle (cfg : Config) : String :=
  match cfg.defaultStyle with
  | some d =>
    if d = "" then DEFAULT_DELIMITER_STYLE
    else
      match (availableDelimiterStyles cfg).find? (fun style => style == d) with
      | some s => if s = "" then DEFAULT_DELIMITER_STYLE else s
      | none => DEFAULT_DELIMITER_STYLE
  | none => DEFAULT_DELIMITER_STYLE

/-- All available widths of the V2 variant. -/
def availableLineWidths (cfg : Config) : List Int :=
  match cfg.lineWidths with
  | some opts => LINE_WIDTHS.filter (fun width => opts.contains width)
  | none => LINE_WIDTHS

/-- The user default line width of the V2 variant. -/
def userDefaultLineWidth (cfg : Config) : Int :=
  match cfg.defaultLineWidth with
  | some d =>
    if d = 0 then DEFAULT_LINE_WIDTH
    else
      match (availableLineWidths cfg).find? (fun width => width == d) with
      | some w => if w = 0 then DEFAULT_LINE_WIDTH else w
      | none => DEFAULT_LINE_WIDTH
  | none => DEFAULT_LINE_WIDTH

/-- All available thickness tokens of the V2 variant. -/
def availableLineThickness (cfg : Config) : List String :=
  match cfg.lineThickness with
  | some opts => LINE_THICKNESS.filter (fun thickness => opts.contains thickness)
  | none => LINE_THICKNESS

/-- The user default thickness token of the V2 variant. -/
def userDefaultLineThickness (cfg : Config) : String :=
  match cfg.defaultLineThickness with
  | some d =>
    if d = "" then DEFAULT_LINE_THICKNESS
    else
      match (availableLineThickness cfg).find? (fun thickness => thickness == d) with
      | some t => if t = "" then DEFAULT_LINE_THICKNESS else t
      | none => DEFAULT_LINE_THICKNESS
  | none => DEFAULT_LINE_THICKNESS

/-- The fields a V2 data object may carry; the thickness is a token. -/
structure DataObj where
  style : Option String := none
  lineWidth : Option Int := none
  lineThickness : Option String := none
deriving DecidableEq

/-- The data argument of the V2 constructor. -/
inductive InputData where
  | notObject
  | obj (d : DataObj)
deriving DecidableEq

/-- The complete internal state of the V2 variant. -/
structure DelimiterData where
  style : String
  lineWidth : Int
  lineThickness : String
deriving DecidableEq

/-- The V2 data normalizer: like V1 but the thickness is taken verbatim
(value-or-default, no parseInt). -/
def normalizeData (cfg : Config) (d : InputData) : DelimiterData :=
  let dd := match d with
    | .notObject => DataObj.mk none none none
    | .obj o => o
  { style := jsOrStr dd.style (userDefaultDelimiterStyle cfg)
    lineWidth := jsOrInt dd.lineWidth (userDefaultLineWidth cfg)
    lineThickness := jsOrStr dd.lineThickness (userDefaultLineThickness cfg) }

/-- The current delimiter style of the V2 variant. -/
def currentDelimiterStyle (cfg : Config) (st : DelimiterData) : String :=
  match (availableDelimiterStyles cfg).find? (fun style => style == st.style) with
  | some s => if s = "" then userDefaultDelimiterStyle cfg else s
  | none => userDefaultDelimiterStyle cfg

/-- The current line width of the V2 variant. -/
def currentLineWidth (cfg : Config) (st : DelimiterData) : Int :=
  match (availableLineWidths cfg).find? (fun width => width == st.lineWidth) with
  | some w => if w = 0 then userDefaultLineWidth cfg else w
  | none => userDefaultLineWidth cfg

/-- The current thickness token of the V2 variant. -/
def currentLineThickness (cfg : Config) (st : DelimiterData) : String :=
  match (availableLineThickness cfg).find? (fun thickness => thickness == st.lineThickness) with
  | some t => if t = "" then userDefaultLineThickness cfg else t
  | none => userDefaultLineThickness cfg

/-- The V2 save output: all three fields are always present. -/
structure SavedData where
  style : String
  lineWidth : Int
  lineThickness : String
deriving DecidableEq

/-- The V2 save method: style, width and thickness regardless of style. -/
def save (cfg : Config) (st : DelimiterData) : SavedData :=
  { style := currentDelimiterStyle cfg st
    lineWidth := currentLineWidth cfg st
    lineThickness := currentLineThickness cfg st }

/-- The state mutation a V2 onActivate callback performs, as a tag. -/
inductive Action where
  | setStar
  | setDash
  | setLine (width : Int)
  | setLineThickness (thickness : String)
deriving DecidableEq

/-- A V2 block settings menu entry. -/
structure MenuItem where
  icon : String
  label : String
  onActivate : Action
  isActive : Bool
  closeOnActivate : Bool
  toggle : String
deriving DecidableEq

/-- The numeric part of the V2 thickness label, modelling the expression
parseInt mapped over parseFloat of the token times two. On the six
supported tokens the halves are exact in floating point, so the value is
the one tabulated here; the function is only applied to members of the
available thickness list, a subset of the supported tokens. -/
def thicknessLabelValue (t : String) : Int :=
  if t = "0.5px" then 1
  else if t = "1px" then 2
  else if t = "1.5px" then 3
  else if t = "2px" then 4
  else if t = "2.5px" then 5
  else if t = "3px" then 6
  else 0

/-- The V2 settings menu: the star entry, the dash entry, one entry per
available width, and, only when the current style is line, one entry per
available thickness token; every entry uses the imported delimiter icon. -/
def renderSettings (cfg : Config) (st : DelimiterData) : List MenuItem :=
  let starStyle : List MenuItem := [
    { icon := IconDelimiter, label := "Star", onActivate := .setStar
      isActive := currentDelimiterStyle cfg st == "star"
      closeOnActivate := true, toggle := "star" }]
  let dashStyle : List MenuItem := [
    { icon := IconDelimiter, label := "Dash", onActivate := .setDash
      isActive := currentDelimiterStyle cfg st == "dash"
      closeOnActivate := true, toggle := "dash" }]
  let lineWidths := (availableLineWidths cfg).map (fun width =>
    { icon := IconDelimiter, label := "Line " ++ toString width ++ "%"
      onActivate := Action.setLine width
      isActive := (currentDelimiterStyle cfg st == "line") && (width == currentLineWidth cfg st)
      closeOnActivate := true, toggle := "line" })
  let lineThickness : List MenuItem :=
    if currentDelimiterStyle cfg st == "line" then
      (availableLineThickness cfg).map (fun thickness =>
        { icon := IconDelimiter, label := "Thickness " ++ toString (thicknessLabelValue thickness)
          onActivate := Action.setLineThickness thickness
          isActive := thickness == currentLineThickness cfg st
          closeOnActivate := true, toggle := "thickness" })
    else []
  starStyle ++ dashStyle ++ lineWidths ++ lineThickness

end V2

/-- Finding an element by equality with a member returns exactly that
member. -/
theorem find_self {α : Type} [DecidableEq α] (l : List α) (x : α) (h : x ∈ l) :
    l.find? (fun y => y == x) = some x := by
  induction l with
  | nil => simp at h
  | cons a t ih =>
    by_cases hax : a = x
    · subst hax
      exact List.find?_cons_of_pos _ (by simp)
    · have hxt : x ∈ t := by
        rcases List.mem_cons.mp h with h1 | h2
        · exact absurd h1.symm hax
        · exact h2
      rw [List.find?_cons_of_neg _ (by simp [hax])]
      exact ih hxt

/-- Finding an element by equality with a non-member fails. -/
theorem find_not_mem {α : Type} [DecidableEq α] (l : List α) (x : α) (h : x ∉ l) :
    l.find? (fun y => y == x) = none := by
  rw [List.find?_eq_none]
  intro a ha
  simp only [beq_iff_eq]
  intro he
  exact h (he ▸ ha)

namespace V1

/-- Available styles are supported styles. -/
theorem mem_avail_styles {cfg : Config} {s : String}
    (h : s ∈ availableDelimiterStyles cfg) : s ∈ DELIMITER_STYLES := by
  unfold availableDelimiterStyles at h
  cases hc : cfg.styleOptions with
  | none => rw [hc] at h; exact h
  | some opts => rw [hc] at h; exact (List.mem_filter.mp h).1

/-- Available widths are supported widths. -/
theorem mem_avail_widths {cfg : Config} {w : Int}
    (h : w ∈ availableLineWidths cfg) : w ∈ SUPPORTED_LINE_WIDTHS := by
  unfold availableLineWidths at h
  cases hc : cfg.lineWidthOptions with
  | none => rw [hc] at h; exact h
  | some opts => rw [hc] at h; exact (List.mem_filter.mp h).1

/-- Available thickness options are supported thickness options. -/
theorem mem_avail_thickness {cfg : Config} {t : Int}
    (h : t ∈ availableLineThickness cfg) : t ∈ LINE_THICKNESS := by
  unfold availableLineThickness at h
  cases hc : cfg.lineThicknessOptions with
  | none => rw [hc] at h; exact h
  | some opts => rw [hc] at h; exact (List.mem_filter.mp h).1

/-- No supported style is the empty string. -/
theorem supported_style_ne_empty {s : String} (h : s ∈ DELIMITER_STYLES) : s ≠ "" := by
  simp only [DELIMITER_STYLES, List.mem_cons, List.not_mem_nil, or_false] at h
  rcases h with rfl | rfl | rfl <;> decide

/-- No supported width is zero. -/
theorem supported_width_ne_zero {w : Int} (h : w ∈ SUPPORTED_LINE_WIDTHS) : w ≠ 0 := by
  simp only [SUPPORTED_LINE_WIDTHS, List.mem_cons, List.not_mem_nil, or_false] at h
  rcases h with rfl | rfl | rfl | rfl | rfl | rfl | rfl <;> decide

/-- No supported thickness is zero. -/
theorem supported_thickness_ne_zero {t : Int} (h : t ∈ LINE_THICKNESS) : t ≠ 0 := by
  simp only [LINE_THICKNESS, List.mem_cons, List.not_mem_nil, or_false] at h
  rcases h with rfl | rfl | rfl | rfl | rfl | rfl <;> decide

/-- The style accessor characterized: the stored style when it is an
available style, the user default otherwise. -/
theorem currentStyle_char (cfg : Config) (st : DelimiterData) :
    currentDelimiterStyle cfg st =
      if st.style ∈ availableDelimiterStyles cfg then st.style
      else userDefaultDelimiterStyle cfg := by
  by_cases h : st.style ∈ availableDelimiterStyles cfg
  · rw [if_pos h]
    unfold currentDelimiterStyle
    rw [find_self _ _ h]
    simp [supported_style_ne_empty (mem_avail_styles h)]
  · rw [if_neg h]
    unfold currentDelimiterStyle
    rw [find_not_mem _ _ h]

/-- The width accessor characterized. -/
theorem currentWidth_char (cfg : Config) (st : DelimiterData) :
    currentLineWidth cfg st =
      if st.lineWidth ∈ availableLineWidths cfg then st.lineWidth
      else userDefaultLineWidth cfg := by
  by_cases h : st.lineWidth ∈ availableLineWidths cfg
  · rw [if_pos h]
    unfold currentLineWidth
    rw [find_self _ _ h]
    simp [supported_width_ne_zero (mem_avail_widths h)]
  · rw [if_neg h]
    unfold currentLineWidth
    rw [find_not_mem _ _ h]

/-- The thickness accessor characterized. -/
theorem currentThickness_char (cfg : Config) (st : DelimiterData) :
    currentLineThickness cfg st =
      if st.lineThickness ∈ availableLineThickness cfg then st.lineThickness
      else userDefaultLineThickness cfg := by
  by_cases h : st.lineThickness ∈ availableLineThickness cfg
  · rw [if_pos h]
    unfold currentLineThickness
    rw [find_self _ _ h]
    simp [supported_thickness_ne_zero (mem_avail_thickness h)]
  · rw [if_neg h]
    unfold currentLineThickness
    rw [find_not_mem _ _ h]

end V1

/-- C7: the line-width icon lookup is a pure total function returning the
documented coordinate pair for each of the seven supported widths, and the
100 percent pair for every other input. -/
theorem C7_line_icon_lookup :
    lineIconCoords 8 = (10, 14) ∧ lineIconCoords 15 = (9, 15) ∧
    lineIconCoords 25 = (8, 16) ∧ lineIconCoords 35 = (7, 17) ∧
    lineIconCoords 50 = (6, 18) ∧ lineIconCoords 60 = (5, 19) ∧
    lineIconCoords 100 = (4, 20) ∧
    ∀ w : Int, w ∉ ([8, 15, 25, 35, 50, 60, 100] : List Int) →
      lineIconCoords w = (4, 20) := by
  refine ⟨by decide, by decide, by decide, by decide, by decide, by decide, by decide, ?_⟩
  intro w h
  simp only [List.mem_cons, List.not_mem_nil, or_false, not_or] at h
  obtain ⟨h8, h15, h25, h35, h50, h60, _⟩ := h
  simp [lineIconCoords, h8, h15, h25, h35, h50, h60]

/-- Witness for C7: the unsupported width 42 maps to the 100 percent pair. -/
theorem C7_line_icon_lookup_witness :
    (42 : Int) ∉ ([8, 15, 25, 35, 50, 60, 100] : List Int) ∧
    lineIconCoords 42 = (4, 20) :=
  ⟨by decide, C7_line_icon_lookup.2.2.2.2.2.2.2 42 (by decide)⟩

/-- C8 counterexample: the widths 8 and 15 are both supported and 8 is
smaller, yet the endpoint distance at 15 is strictly larger than at 8, so
a wider percentage does not bring the glyph positions closer together. -/
theorem C8_counterexample :
    (8 : Int) ∈ V1.SUPPORTED_LINE_WIDTHS ∧ (15 : Int) ∈ V1.SUPPORTED_LINE_WIDTHS ∧
    (8 : Int) < 15 ∧ ¬ (lineIconDist 15 ≤ lineIconDist 8) := by
  refine ⟨by decide, by decide, by decide, by decide⟩

/-- C8 amended: the endpoint distance of the line-width icon grows with
the width: for supported widths w1 smaller than w2, the distance at w1 is
at most the distance at w2. -/
theorem C8_icon_monotone (w1 w2 : Int)
    (h1 : w1 ∈ V1.SUPPORTED_LINE_WIDTHS) (h2 : w2 ∈ V1.SUPPORTED_LINE_WIDTHS)
    (hlt : w1 < w2) : lineIconDist w1 ≤ lineIconDist w2 := by
  simp only [V1.SUPPORTED_LINE_WIDTHS, List.mem_cons, List.not_mem_nil, or_false] at h1 h2
  rcases h1 with rfl | rfl | rfl | rfl | rfl | rfl | rfl <;>
    rcases h2 with rfl | rfl | rfl | rfl | rfl | rfl | rfl <;>
    revert hlt <;> decide

/-- Witness for C8: instantiated at the supported widths 8 and 15. -/
theorem C8_icon_monotone_witness :
    (8 : Int) ∈ V1.SUPPORTED_LINE_WIDTHS ∧ (15 : Int) ∈ V1.SUPPORTED_LINE_WIDTHS ∧
    (8 : Int) < 15 ∧ lineIconDist 8 ≤ lineIconDist 15 :=
  ⟨by decide, by decide, by decide,
    C8_icon_monotone 8 15 (by decide) (by decide) (by decide)⟩

/-- C9: a constructor data argument whose typeof is not object is coerced
to the empty record, normalization completes, and every field of the
resulting state is the resolved default; the same holds in both variants. -/
theorem C9_nonobject_coerced (cfg : V1.Config) (cfg2 : V2.Config) :
    V1.normalizeData cfg .notObject = V1.normalizeData cfg (.obj V1.DataObj.empty) ∧
    V1.normalizeData cfg .notObject =
      { style := V1.userDefaultDelimiterStyle cfg
        lineWidth := V1.userDefaultLineWidth cfg
        lineThickness := V1.userDefaultLineThickness cfg } ∧
    V2.normalizeData cfg2 .notObject = V2.normalizeData cfg2 (.obj (V2.DataObj.mk none none none)) ∧
    V2.normalizeData cfg2 .notObject =
      { style := V2.userDefaultDelimiterStyle cfg2
        lineWidth := V2.userDefaultLineWidth cfg2
        lineThickness := V2.userDefaultLineThickness cfg2 } := by
  refine ⟨rfl, ?_, rfl, ?_⟩ <;> rfl

namespace V1

/-- The resolved style default is an available style or the built-in
default. -/
theorem userDefaultStyle_mem_or (cfg : Config) :
    userDefaultDelimiterStyle cfg ∈ availableDelimiterStyles cfg ∨
    userDefaultDelimiterStyle cfg = DEFAULT_DELIMITER_STYLE := by
  unfold userDefaultDelimiterStyle
  cases hd : cfg.defaultStyle with
  | none => exact Or.inr rfl
  | some d =>
    by_cases hde : d = ""
    · simp [hde]
    · simp only [if_neg hde]
      cases hf : (availableDelimiterStyles cfg).find? (fun style => style == d) with
      | none => exact Or.inr rfl
      | some s =>
        by_cases hse : s = ""
        · simp [hse]
        · simp only [if_neg hse]
          exact Or.inl (List.mem_of_find?_eq_some hf)

/-- The resolved width default is an available width or the built-in
default. -/
theorem userDefaultWidth_mem_or (cfg : Config) :
    userDefaultLineWidth cfg ∈ availableLineWidths cfg ∨
    userDefaultLineWidth cfg = DEFAULT_LINE_WIDTH := by
  unfold userDefaultLineWidth
  cases hd : cfg.defaultLineWidth with
  | none => exact Or.inr rfl
  | some d =>
    by_cases hde : d = 0
    · simp [hde]
    · simp only [if_neg hde]
      cases hf : (availableLineWidths cfg).find? (fun width => width == d) with
      | none => exact Or.inr rfl
      | some w =>
        by_cases hwe : w = 0
        · simp [hwe]
        · simp only [if_neg hwe]
          exact Or.inl (List.mem_of_find?_eq_some hf)

/-- The resolved thickness default is an available thickness or the
built-in default. -/
theorem userDefaultThickness_mem_or (cfg : Config) :
    userDefaultLineThickness cfg ∈ availableLineThickness cfg ∨
    userDefaultLineThickness cfg = DEFAULT_LINE_THICKNESS := by
  unfold userDefaultLineThickness
  cases hd : cfg.defaultLineThickness with
  | none => exact Or.inr rfl
  | some d =>
    by_cases hde : d = 0
    · simp [hde]
    · simp only [if_neg hde]
      cases hf : (availableLineThickness cfg).find? (fun thickness => thickness == d) with
      | none => exact Or.inr rfl
      | some t =>
        by_cases hte : t = 0
        · simp [hte]
        · simp only [if_neg hte]
          exact Or.inl (List.mem_of_find?_eq_some hf)

end V1

/-- C1 counterexample: with an allow-list of only the dash style and no
configured preferred default, the resolved style default is star, which is
outside the available set. -/
theorem C1_counterexample :
    V1.userDefaultDelimiterStyle ⟨some ["dash"], none, none, none, none, none⟩ = "star" ∧
    "star" ∉ V1.availableDelimiterStyles ⟨some ["dash"], none, none, none, none, none⟩ := by
  constructor
  · rfl
  · decide

/-- C1 amended: each resolved default is a member of its available set or
is the built-in default; in particular the resolved default is inside the
available set whenever the built-in default is, but when the allow-list
excludes the built-in default and no valid preferred default is
configured, the resolved default is the built-in default, a value outside
the available set. -/
theorem C1_resolved_default_in_available (cfg : V1.Config) :
    ((V1.userDefaultDelimiterStyle cfg ∈ V1.availableDelimiterStyles cfg ∨
        V1.userDefaultDelimiterStyle cfg = V1.DEFAULT_DELIMITER_STYLE) ∧
      (V1.DEFAULT_DELIMITER_STYLE ∈ V1.availableDelimiterStyles cfg →
        V1.userDefaultDelimiterStyle cfg ∈ V1.availableDelimiterStyles cfg)) ∧
    ((V1.userDefaultLineWidth cfg ∈ V1.availableLineWidths cfg ∨
        V1.userDefaultLineWidth cfg = V1.DEFAULT_LINE_WIDTH) ∧
      (V1.DEFAULT_LINE_WIDTH ∈ V1.availableLineWidths cfg →
        V1.userDefaultLineWidth cfg ∈ V1.availableLineWidths cfg)) ∧
    ((V1.userDefaultLineThickness cfg ∈ V1.availableLineThickness cfg ∨
        V1.userDefaultLineThickness cfg = V1.DEFAULT_LINE_THICKNESS) ∧
      (V1.DEFAULT_LINE_THICKNESS ∈ V1.availableLineThickness cfg →
        V1.userDefaultLineThickness cfg ∈ V1.availableLineThickness cfg)) := by
  refine ⟨⟨V1.userDefaultStyle_mem_or cfg, ?_⟩,
          ⟨V1.userDefaultWidth_mem_or cfg, ?_⟩,
          ⟨V1.userDefaultThickness_mem_or cfg, ?_⟩⟩
  · intro h
    rcases V1.userDefaultStyle_mem_or cfg with hm | he
    · exact hm
    · rw [he]; exact h
  · intro h
    rcases V1.userDefaultWidth_mem_or cfg with hm | he
    · exact hm
    · rw [he]; exact h
  · intro h
    rcases V1.userDefaultThickness_mem_or cfg with hm | he
    · exact hm
    · rw [he]; exact h

/-- Witness for C1 amended: with the default configuration the resolved
style default is a member of the available styles. -/
theorem C1_resolved_default_in_available_witness :
    V1.DEFAULT_DELIMITER_STYLE ∈
      V1.availableDelimiterStyles ⟨none, none, none, none, none, none⟩ ∧
    V1.userDefaultDelimiterStyle ⟨none, none, none, none, none, none⟩ ∈
      V1.availableDelimiterStyles ⟨none, none, none, none, none, none⟩ :=
  ⟨by decide,
    (C1_resolved_default_in_available ⟨none, none, none, none, none, none⟩).1.2 (by decide)⟩

/-- C2 counterexample: a configured preferred line width of zero is not a
member of the available widths and the resolved default is indeed the
built-in default, yet no warning is emitted, because the zero value is
falsy and the validation branch is skipped. -/
theorem C2_counterexample :
    (0 : Int) ∉ V1.availableLineWidths ⟨none, none, none, some 0, none, none⟩ ∧
    V1.userDefaultLineWidth ⟨none, none, none, some 0, none, none⟩ = V1.DEFAULT_LINE_WIDTH ∧
    V1.userDefaultLineWidthWarns ⟨none, none, none, some 0, none, none⟩ = false := by
  refine ⟨by decide, rfl, rfl⟩

/-- C2 amended: for every dimension, an allow-list that is a subset of the
built-in set yields exactly that subset as the available set, an absent
allow-list yields the full built-in set, and a configured preferred
default outside the available set resolves to the built-in default; the
non-fatal warning is emitted exactly when that configured value is also
truthy (a falsy configured default, zero or the empty string, is treated
as absent and falls back silently). -/
theorem C2_config_resolver (cfg : V1.Config) :
    ((∀ opts, cfg.styleOptions = some opts → (∀ x ∈ opts, x ∈ V1.DELIMITER_STYLES) →
        ∀ x, x ∈ V1.availableDelimiterStyles cfg ↔ x ∈ opts) ∧
      (cfg.styleOptions = none → V1.availableDelimiterStyles cfg = V1.DELIMITER_STYLES) ∧
      (∀ d, cfg.defaultStyle = some d → d ∉ V1.availableDelimiterStyles cfg →
        V1.userDefaultDelimiterStyle cfg = V1.DEFAULT_DELIMITER_STYLE ∧
        (V1.userDefaultDelimiterStyleWarns cfg = true ↔ d ≠ ""))) ∧
    ((∀ opts, cfg.lineWidthOptions = some opts → (∀ x ∈ opts, x ∈ V1.SUPPORTED_LINE_WIDTHS) →
        ∀ x, x ∈ V1.availableLineWidths cfg ↔ x ∈ opts) ∧
      (cfg.lineWidthOptions = none → V1.availableLineWidths cfg = V1.SUPPORTED_LINE_WIDTHS) ∧
      (∀ d, cfg.defaultLineWidth = some d → d ∉ V1.availableLineWidths cfg →
        V1.userDefaultLineWidth cfg = V1.DEFAULT_LINE_WIDTH ∧
        (V1.userDefaultLineWidthWarns cfg = true ↔ d ≠ 0))) ∧
    ((∀ opts, cfg.lineThicknessOptions = some opts → (∀ x ∈ opts, x ∈ V1.LINE_THICKNESS) →
        ∀ x, x ∈ V1.availableLineThickness cfg ↔ x ∈ opts) ∧
      (cfg.lineThicknessOptions = none → V1.availableLineThickness cfg = V1.LINE_THICKNESS) ∧
      (∀ d, cfg.defaultLineThickness = some d → d ∉ V1.availableLineThickness cfg →
        V1.userDefaultLineThickness cfg = V1.DEFAULT_LINE_THICKNESS ∧
        (V1.userDefaultLineThicknessWarns cfg = true ↔ d ≠ 0))) := by
  refine ⟨⟨?_, ?_, ?_⟩, ⟨?_, ?_, ?_⟩, ⟨?_, ?_, ?_⟩⟩
  · intro opts hopts hsub x
    unfold V1.availableDelimiterStyles
    rw [hopts]
    simp only [List.mem_filter]
    constructor
    · intro hx
      have := hx.2
      simpa using this
    · intro hx
      exact ⟨hsub x hx, by simpa using hx⟩
  · intro hn
    unfold V1.availableDelimiterStyles
    rw [hn]
  · intro d hd hnm
    have hfind : (V1.availableDelimiterStyles cfg).find? (fun style => style == d) = none :=
      find_not_mem _ _ hnm
    by_cases hde : d = ""
    · subst hde
      constructor
      · unfold V1.userDefaultDelimiterStyle
        rw [hd]
        simp
      · unfold V1.userDefaultDelimiterStyleWarns
        rw [hd]
        simp
    · constructor
      · unfold V1.userDefaultDelimiterStyle
        simp [hd, hde, hfind]
      · unfold V1.userDefaultDelimiterStyleWarns
        simp [hd, hde, hfind]
  · intro opts hopts hsub x
    unfold V1.availableLineWidths
    rw [hopts]
    simp only [List.mem_filter]
    constructor
    · intro hx
      have := hx.2
      simpa using this
    · intro hx
      exact ⟨hsub x hx, by simpa using hx⟩
  · intro hn
    unfold V1.availableLineWidths
    rw [hn]
  · intro d hd hnm
    have hfind : (V1.availableLineWidths cfg).find? (fun width => width == d) = none :=
      find_not_mem _ _ hnm
    by_cases hde : d = 0
    · subst hde
      constructor
      · unfold V1.userDefaultLineWidth
        rw [hd]
        simp
      · unfold V1.userDefaultLineWidthWarns
        rw [hd]
        simp
    · constructor
      · unfold V1.userDefaultLineWidth
        simp [hd, hde, hfind]
      · unfold V1.userDefaultLineWidthWarns
        simp [hd, hde, hfind]
  · intro opts hopts hsub x
    unfold V1.availableLineThickness
    rw [hopts]
    simp only [List.mem_filter]
    constructor
    · intro hx
      have := hx.2
      simpa using this
    · intro hx
      exact ⟨hsub x hx, by simpa using hx⟩
  · intro hn
    unfold V1.availableLineThickness
    rw [hn]
  · intro d hd hnm
    have hfind : (V1.availableLineThickness cfg).find? (fun thickness => thickness == d) = none :=
      find_not_mem _ _ hnm
    by_cases hde : d = 0
    · subst hde
      constructor
      · unfold V1.userDefaultLineThickness
        rw [hd]
        simp
      · unfold V1.userDefaultLineThicknessWarns
        rw [hd]
        simp
    · constructor
      · unfold V1.userDefaultLineThickness
        simp [hd, hde, hfind]
      · unfold V1.userDefaultLineThicknessWarns
        simp [hd, hde, hfind]

/-- Witness for C2 amended: a configured preferred width of 999 is outside
the available widths, the resolved default is the built-in 25, and the
warning is emitted. -/
theorem C2_config_resolver_witness :
    V1.userDefaultLineWidth ⟨none, none, none, some 999, none, none⟩ = V1.DEFAULT_LINE_WIDTH ∧
    (V1.userDefaultLineWidthWarns ⟨none, none, none, some 999, none, none⟩ = true ↔
      (999 : Int) ≠ 0) :=
  (C2_config_resolver ⟨none, none, none, some 999, none, none⟩).2.1.2.2 999 rfl (by decide)

/-- C3: each current-value accessor returns the stored state value when it
is a member of the available set of its dimension and the resolved default
otherwise; and the save and element-construction paths depend on the state
only through the three accessors, never through the raw fields. -/
theorem C3_current_accessors (cfg : V1.Config) (api : V1.Api) (st : V1.DelimiterData) :
    (V1.currentDelimiterStyle cfg st =
      if st.style ∈ V1.availableDelimiterStyles cfg then st.style
      else V1.userDefaultDelimiterStyle cfg) ∧
    (V1.currentLineWidth cfg st =
      if st.lineWidth ∈ V1.availableLineWidths cfg then st.lineWidth
      else V1.userDefaultLineWidth cfg) ∧
    (V1.currentLineThickness cfg st =
      if st.lineThickness ∈ V1.availableLineThickness cfg then st.lineThickness
      else V1.userDefaultLineThickness cfg) ∧
    (∀ st' : V1.DelimiterData,
      V1.currentDelimiterStyle cfg st = V1.currentDelimiterStyle cfg st' ∧
      V1.currentLineWidth cfg st = V1.currentLineWidth cfg st' ∧
      V1.currentLineThickness cfg st = V1.currentLineThickness cfg st' →
      V1.save cfg st = V1.save cfg st' ∧
      V1.getElement api cfg st = V1.getElement api cfg st') := by
  refine ⟨V1.currentStyle_char cfg st, V1.currentWidth_char cfg st,
    V1.currentThickness_char cfg st, ?_⟩
  intro st' h
  obtain ⟨h1, h2, h3⟩ := h
  constructor
  · unfold V1.save
    rw [h1, h2, h3]
  · unfold V1.getElement V1.createChildElement
    rw [h1, h2, h3]

/-- Witness for C3: two states differing in raw width and thickness but
with equal accessor values produce the same save output and element. -/
theorem C3_current_accessors_witness :
    V1.save ⟨none, none, none, none, none, none⟩ ⟨"star", 999, 0⟩ =
      V1.save ⟨none, none, none, none, none, none⟩ ⟨"star", 25, 2⟩ ∧
    V1.getElement ⟨"blk", fun s => s⟩ ⟨none, none, none, none, none, none⟩ ⟨"star", 999, 0⟩ =
      V1.getElement ⟨"blk", fun s => s⟩ ⟨none, none, none, none, none, none⟩ ⟨"star", 25, 2⟩ :=
  (C3_current_accessors ⟨none, none, none, none, none, none⟩ ⟨"blk", fun s => s⟩
      ⟨"star", 999, 0⟩).2.2.2 ⟨"star", 25, 2⟩ ⟨by decide, by decide, by decide⟩

/-- C4: in the integer-thickness variant, save returns only the style
field when the current style is star or dash, and style plus width plus
thickness when it is line; in the string-token variant, save always
returns all three fields. -/
theorem C4_save_shape (cfg : V1.Config) (st : V1.DelimiterData)
    (cfg2 : V2.Config) (st2 : V2.DelimiterData) :
    ((V1.currentDelimiterStyle cfg st = "star" ∨ V1.currentDelimiterStyle cfg st = "dash") →
      V1.save cfg st = { style := V1.currentDelimiterStyle cfg st }) ∧
    (V1.currentDelimiterStyle cfg st = "line" →
      V1.save cfg st = { style := "line"
                         lineWidth := some (V1.currentLineWidth cfg st)
                         lineThickness := some (V1.currentLineThickness cfg st) }) ∧
    V2.save cfg2 st2 = { style := V2.currentDelimiterStyle cfg2 st2
                         lineWidth := V2.currentLineWidth cfg2 st2
                         lineThickness := V2.currentLineThickness cfg2 st2 } := by
  refine ⟨?_, ?_, rfl⟩
  · intro h
    have hne : V1.currentDelimiterStyle cfg st ≠ "line" := by
      rcases h with h | h <;> rw [h] <;> decide
    unfold V1.save
    rw [if_neg hne]
  · intro h
    unfold V1.save
    rw [if_pos h, h]

/-- Witness for C4: a star state saves to only the style field and a line
state saves to all three fields. -/
theorem C4_save_shape_witness :
    V1.save ⟨none, none, none, none, none, none⟩ ⟨"star", 25, 2⟩ =
      { style := V1.currentDelimiterStyle ⟨none, none, none, none, none, none⟩ ⟨"star", 25, 2⟩ } ∧
    V1.save ⟨none, none, none, none, none, none⟩ ⟨"line", 25, 2⟩ =
      { style := "line"
        lineWidth := some (V1.currentLineWidth ⟨none, none, none, none, none, none⟩ ⟨"line", 25, 2⟩)
        lineThickness :=
          some (V1.currentLineThickness ⟨none, none, none, none, none, none⟩ ⟨"line", 25, 2⟩) } :=
  ⟨(C4_save_shape ⟨none, none, none, none, none, none⟩ ⟨"star", 25, 2⟩
      ⟨none, none, none, none, none, none⟩ ⟨"star", 25, "1px"⟩).1 (Or.inl (by decide)),
    (C4_save_shape ⟨none, none, none, none, none, none⟩ ⟨"line", 25, 2⟩
      ⟨none, none, none, none, none, none⟩ ⟨"star", 25, "1px"⟩).2.1 (by decide)⟩

/-- C5: for well-formed data whose style, width and thickness are members
of their available sets, normalization stores the fields unchanged and
save immediately after construction reproduces the style, and for the line
style also the width and the thickness. -/
theorem C5_roundtrip (cfg : V1.Config) (s : String) (w t : Int)
    (hs : s ∈ V1.availableDelimiterStyles cfg)
    (hw : w ∈ V1.availableLineWidths cfg)
    (ht : t ∈ V1.availableLineThickness cfg) :
    V1.normalizeData cfg (.obj ⟨some s, some w, some t⟩) = ⟨s, w, t⟩ ∧
    (V1.save cfg ⟨s, w, t⟩).style = s ∧
    (s = "line" → V1.save cfg ⟨s, w, t⟩ = ⟨"line", some w, some t⟩) := by
  have hsne : s ≠ "" := V1.supported_style_ne_empty (V1.mem_avail_styles hs)
  have hwne : w ≠ 0 := V1.supported_width_ne_zero (V1.mem_avail_widths hw)
  have htne : t ≠ 0 := V1.supported_thickness_ne_zero (V1.mem_avail_thickness ht)
  have hcs : V1.currentDelimiterStyle cfg ⟨s, w, t⟩ = s := by
    rw [V1.currentStyle_char]
    exact if_pos hs
  have hcw : V1.currentLineWidth cfg ⟨s, w, t⟩ = w := by
    rw [V1.currentWidth_char]
    exact if_pos hw
  have hct : V1.currentLineThickness cfg ⟨s, w, t⟩ = t := by
    rw [V1.currentThickness_char]
    exact if_pos ht
  refine ⟨?_, ?_, ?_⟩
  · simp [V1.normalizeData, jsOrStr, jsOrInt, hsne, hwne, htne]
  · have hstyle : (V1.save cfg ⟨s, w, t⟩).style = V1.currentDelimiterStyle cfg ⟨s, w, t⟩ := by
      unfold V1.save
      split <;> rfl
    rw [hstyle, hcs]
  · intro hl
    unfold V1.save
    rw [hcs, hcw, hct, hl]
    simp

/-- Witness for C5: the default configuration round-trips a well-formed
line state. -/
theorem C5_roundtrip_witness :
    V1.save ⟨none, none, none, none, none, none⟩ ⟨"line", 50, 3⟩ = ⟨"line", some 50, some 3⟩ :=
  (C5_roundtrip ⟨none, none, none, none, none, none⟩ "line" 50 3
    (by decide) (by decide) (by decide)).2.2 rfl

/-- C6: in both variants, the settings menu lists the star entry, the dash
entry, one entry per available width, and, present exactly when the
current style is line, one entry per available thickness, in that fixed
order; each entry is active exactly when it matches the current state, a
width entry being active when the current style is line and its width is
the current width. -/
theorem C6_settings_menu (api : V1.Api) (cfg : V1.Config) (st : V1.DelimiterData)
    (cfg2 : V2.Config) (st2 : V2.DelimiterData) :
    ((V1.renderSettings api cfg st).map (fun e => (e.toggle, e.onActivate, e.isActive)) =
      [("star", V1.Action.setStar, V1.currentDelimiterStyle cfg st == "star"),
       ("dash", V1.Action.setDash, V1.currentDelimiterStyle cfg st == "dash")] ++
      (V1.availableLineWidths cfg).map (fun w =>
        ("line", V1.Action.setLine w,
          (V1.currentDelimiterStyle cfg st == "line") && (w == V1.currentLineWidth cfg st))) ++
      (if V1.currentDelimiterStyle cfg st == "line" then
        (V1.availableLineThickness cfg).map (fun t =>
          ("thickness", V1.Action.setLineThickness t, t == V1.currentLineThickness cfg st))
       else [])) ∧
    ((V2.renderSettings cfg2 st2).map (fun e => (e.toggle, e.onActivate, e.isActive)) =
      [("star", V2.Action.setStar, V2.currentDelimiterStyle cfg2 st2 == "star"),
       ("dash", V2.Action.setDash, V2.currentDelimiterStyle cfg2 st2 == "dash")] ++
      (V2.availableLineWidths cfg2).map (fun w =>
        ("line", V2.Action.setLine w,
          (V2.currentDelimiterStyle cfg2 st2 == "line") && (w == V2.currentLineWidth cfg2 st2))) ++
      (if V2.currentDelimiterStyle cfg2 st2 == "line" then
        (V2.availableLineThickness cfg2).map (fun t =>
          ("thickness", V2.Action.setLineThickness t, t == V2.currentLineThickness cfg2 st2))
       else [])) := by
  constructor
  · by_cases h : V1.currentDelimiterStyle cfg st == "line" <;>
      simp [V1.renderSettings, V1.createSetting, h, Function.comp] <;> rfl
  · by_cases h : V2.currentDelimiterStyle cfg2 st2 == "line" <;>
      simp [V2.renderSettings, h, Function.comp] <;> rfl

/-- C10: each style-switching callback stores the new style (and for the
line callback the new width) regardless of mounting, but swaps the root
element for a freshly built one only when the element is mounted; on an
unmounted element the stored element is untouched, so render keeps
returning the element built for the previous style. -/
theorem C10_style_callbacks (c : V1.Delimiter) :
    (V1.currentDelimiterStyle c.config c.data ≠ "star" →
      (V1.setStar c).data.style = "star" ∧
      (c.mounted = true →
        (V1.setStar c).element = V1.getElement c.api c.config (V1.setStar c).data) ∧
      (c.mounted = false →
        (V1.setStar c).element = c.element ∧ V1.render (V1.setStar c) = V1.render c)) ∧
    (V1.currentDelimiterStyle c.config c.data ≠ "dash" →
      (V1.setDash c).data.style = "dash" ∧
      (c.mounted = true →
        (V1.setDash c).element = V1.getElement c.api c.config (V1.setDash c).data) ∧
      (c.mounted = false →
        (V1.setDash c).element = c.element ∧ V1.render (V1.setDash c) = V1.render c)) ∧
    (∀ w : Int, V1.currentDelimiterStyle c.config c.data ≠ "line" →
      (V1.setLine w c).data.style = "line" ∧
      (V1.setLine w c).data.lineWidth = w ∧
      (c.mounted = true →
        (V1.setLine w c).element = V1.getElement c.api c.config (V1.setLine w c).data) ∧
      (c.mounted = false →
        (V1.setLine w c).element = c.element ∧ V1.render (V1.setLine w c) = V1.render c)) := by
  refine ⟨?_, ?_, ?_⟩
  · intro h
    have hstar : V1.setStar c =
        V1.replaceElement { c with data := { c.data with style := "star" } } := by
      unfold V1.setStar
      rw [if_pos h]
    cases hm : c.mounted with
    | true =>
      refine ⟨?_, ?_, ?_⟩
      · rw [hstar]
        unfold V1.replaceElement
        simp [hm]
      · intro _
        rw [hstar]
        unfold V1.replaceElement
        simp [hm]
      · intro hf
        simp at hf
    | false =>
      refine ⟨?_, ?_, ?_⟩
      · rw [hstar]
        unfold V1.replaceElement
        simp [hm]
      · intro ht
        simp at ht
      · intro _
        rw [hstar]
        unfold V1.replaceElement V1.render
        simp [hm]
  · intro h
    have hdash : V1.setDash c =
        V1.replaceElement { c with data := { c.data with style := "dash" } } := by
      unfold V1.setDash
      rw [if_pos h]
    cases hm : c.mounted with
    | true =>
      refine ⟨?_, ?_, ?_⟩
      · rw [hdash]
        unfold V1.replaceElement
        simp [hm]
      · intro _
        rw [hdash]
        unfold V1.replaceElement
        simp [hm]
      · intro hf
        simp at hf
    | false =>
      refine ⟨?_, ?_, ?_⟩
      · rw [hdash]
        unfold V1.replaceElement
        simp [hm]
      · intro ht
        simp at ht
      · intro _
        rw [hdash]
        unfold V1.replaceElement V1.render
        simp [hm]
  · intro w h
    have hline : V1.setLine w c =
        V1.replaceElement
          { c with data := { style := "line", lineWidth := w
                             lineThickness := c.data.lineThickness } } := by
      unfold V1.setLine
      dsimp only
      rw [if_pos (show V1.currentDelimiterStyle c.config
        { style := c.data.style, lineWidth := w
          lineThickness := c.data.lineThickness } ≠ "line" from h)]
    cases hm : c.mounted with
    | true =>
      refine ⟨?_, ?_, ?_, ?_⟩
      · rw [hline]
        unfold V1.replaceElement
        simp [hm]
      · rw [hline]
        unfold V1.replaceElement
        simp [hm]
      · intro _
        rw [hline]
        unfold V1.replaceElement
        simp [hm]
      · intro hf
        simp at hf
    | false =>
      refine ⟨?_, ?_, ?_, ?_⟩
      · rw [hline]
        unfold V1.replaceElement
        simp [hm]
      · rw [hline]
        unfold V1.replaceElement
        simp [hm]
      · intro ht
        simp at ht
      · intro _
        rw [hline]
        unfold V1.replaceElement V1.render
        simp [hm]

/-- Witness for C10: switching an unmounted dash component to star updates
the stored style but leaves the element untouched. -/
theorem C10_style_callbacks_witness :
    (V1.setStar
      { api := ⟨"blk", fun s => s⟩, config := ⟨none, none, none, none, none, none⟩
        data := ⟨"dash", 25, 2⟩
        element := ⟨["ce-delimiter", "blk", "ce-delimiter-dash"], .span "———"⟩
        mounted := false }).data.style = "star" ∧
    (V1.setStar
      { api := ⟨"blk", fun s => s⟩, config := ⟨none, none, none, none, none, none⟩
        data := ⟨"dash", 25, 2⟩
        element := ⟨["ce-delimiter", "blk", "ce-delimiter-dash"], .span "———"⟩
        mounted := false }).element =
      ⟨["ce-delimiter", "blk", "ce-delimiter-dash"], .span "———"⟩ := by
  have h := (C10_style_callbacks
    { api := ⟨"blk", fun s => s⟩, config := ⟨none, none, none, none, none, none⟩
      data := ⟨"dash", 25, 2⟩
      element := ⟨["ce-delimiter", "blk", "ce-delimiter-dash"], .span "———"⟩
      mounted := false }).1 (by decide)
  exact ⟨h.1, (h.2.2 rfl).1⟩
